import Mathlib

/-!
Shallow embedding of the `react-native-network-quality` library core:
the quality scorer and one-shot accessor
(`src/measureNetworkQuality.ts`), and the watch-session hook
(`useNetworkQuality`). JavaScript numbers are modelled as rationals:
the scorer and the hook only compare values and never perform
arithmetic on them, so exact rational comparison is faithful.
-/

namespace NetworkQuality

/-- The five tiers of `NetworkQuality` in `types.ts`. -/
inductive Quality where
  | offline
  | poor
  | fair
  | good
  | excellent
deriving DecidableEq, Repr

/-- Type `NetworkType` in `types.ts`. -/
inductive NetworkType where
  | none
  | wifi
  | cellular
  | unknown
deriving DecidableEq, Repr

/-- Type `CellularGeneration` in `types.ts`. -/
inductive CellularGeneration where
  | g2
  | g3
  | g4
  | g5
  | unknown
deriving DecidableEq, Repr

/-- The `NetworkMeasurement` record of `types.ts`. `T | null` fields
become `Option`, and the optional `failureReason` likewise. -/
structure NetworkMeasurement where
  timestamp : ℚ
  networkType : NetworkType
  cellularGeneration : CellularGeneration
  wifiRssi : Option ℚ
  cellularRssi : Option ℚ
  latencyMs : Option ℚ
  jitterMs : Option ℚ
  downlinkMbps : Option ℚ
  packetLossPercent : Option ℚ
  isConnected : Bool
  failureReason : Option String
deriving DecidableEq, Repr

/-- The `NetworkQualityResult` record of `types.ts`. -/
structure NetworkQualityResult where
  quality : Quality
  measurement : NetworkMeasurement
deriving DecidableEq, Repr

/-- Function `scoreNetworkQuality` from `measureNetworkQuality.ts`: offline
short-circuit, then `??`-sentinel substitution (999 / 0 / 100), then
the three threshold branches in source order. -/
def scoreNetworkQuality (measurement : NetworkMeasurement) : Quality :=
  if measurement.isConnected = false then
    .offline
  else
    let latencyMs := measurement.latencyMs.getD 999
    let downlinkMbps := measurement.downlinkMbps.getD 0
    let packetLossPercent := measurement.packetLossPercent.getD 100
    if latencyMs < 50 ∧ downlinkMbps > 20 ∧ packetLossPercent < 1 then
      .excellent
    else if latencyMs < 100 ∧ downlinkMbps ≥ 5 ∧ packetLossPercent < 5 then
      .good
    else if latencyMs < 200 ∧ downlinkMbps ≥ 1 ∧ packetLossPercent < 10 then
      .fair
    else
      .poor

/-- Function `measureNetworkQuality` from `measureNetworkQuality.ts`, as a
function of the value the native `measureNetwork` promise resolves to.
The source copies the native fields one by one into
`typedMeasurement` and pairs it with its score. -/
def measureNetworkQuality (measurement : NetworkMeasurement) : NetworkQualityResult :=
  let typedMeasurement : NetworkMeasurement :=
    { timestamp := measurement.timestamp
      networkType := measurement.networkType
      cellularGeneration := measurement.cellularGeneration
      wifiRssi := measurement.wifiRssi
      cellularRssi := measurement.cellularRssi
      latencyMs := measurement.latencyMs
      jitterMs := measurement.jitterMs
      downlinkMbps := measurement.downlinkMbps
      packetLossPercent := measurement.packetLossPercent
      isConnected := measurement.isConnected
      failureReason := measurement.failureReason }
  { quality := scoreNetworkQuality typedMeasurement
    measurement := typedMeasurement }

/-- A measurement record with every nullable field absent, used to
build concrete test inputs. -/
def emptyMeasurement : NetworkMeasurement :=
  { timestamp := 0
    networkType := .unknown
    cellularGeneration := .unknown
    wifiRssi := Option.none
    cellularRssi := Option.none
    latencyMs := Option.none
    jitterMs := Option.none
    downlinkMbps := Option.none
    packetLossPercent := Option.none
    isConnected := true
    failureReason := Option.none }

/-- Options record `UseNetworkQualityOptions` from `types.ts`. Optional
fields become `Option`; the `onMeasure` callback is modelled by whether
it is provided (`hasOnMeasure`). -/
structure UseNetworkQualityOptions where
  measureOnResume : Option Bool
  measureOnMount : Option Bool
  extended : Option Bool
  timeoutMs : Option ℚ
  hasOnMeasure : Bool
deriving DecidableEq, Repr

/-- State of one watch session: the five `useState` cells of
`useNetworkQuality` plus the `isMeasuringRef` mutual-exclusion flag. -/
structure SessionState where
  quality : Option Quality
  measurement : Option NetworkMeasurement
  isLoading : Bool
  error : Option String
  lastMeasuredAt : Option ℚ
  isMeasuring : Bool
deriving DecidableEq, Repr

/-- Initial hook state: every `useState` starts at `null`/`false` and
the ref starts `false`. -/
def initialSessionState : SessionState :=
  { quality := Option.none
    measurement := Option.none
    isLoading := false
    error := Option.none
    lastMeasuredAt := Option.none
    isMeasuring := false }

/-- Outcome of the awaited `measureNetworkQuality(...)` call inside
`performMeasurement`: the promise either resolves with a result (taken
at wall time `now`, for `Date.now()`) or rejects with an error message. -/
inductive MeasureOutcome where
  | success (result : NetworkQualityResult) (now : ℚ)
  | failure (errorMsg : String)
deriving DecidableEq, Repr

/-- Observable invocations of the consumer's `onMeasure` callback. -/
inductive CallbackCall where
  | onMeasure (result : Option NetworkQualityResult) (error : Option String)
deriving DecidableEq, Repr

/-- Calls made by `options?.onMeasure?.(result, err)`: nothing happens
unless both `options` and the callback are provided. -/
def onMeasureCalls (options : Option UseNetworkQualityOptions)
    (result : Option NetworkQualityResult) (err : Option String) : List CallbackCall :=
  match options with
  | Option.none => []
  | some o => if o.hasOnMeasure then [.onMeasure result err] else []

/-- Synchronous prefix of `performMeasurement`, up to its `await`:
if `isMeasuringRef.current` is set, return at once (no state change,
second component `false` = no run started); otherwise set the flag,
set `isLoading`, clear `error`, and start a run (`true`). -/
def performMeasurementStart (s : SessionState) : SessionState × Bool :=
  if s.isMeasuring then
    (s, false)
  else
    ({ s with isMeasuring := true, isLoading := true, error := Option.none }, true)

/-- Completion handling of `performMeasurement` once the awaited call
settles: the `try` tail on success (set quality, measurement,
`lastMeasuredAt`, fire `onMeasure(result, null)`), the `catch` block on
rejection (set `error`, clear `quality`, fire `onMeasure(null, msg)`),
and in both cases the `finally` block (clear `isLoading` and the
mutual-exclusion flag). -/
def performMeasurementComplete (options : Option UseNetworkQualityOptions)
    (s : SessionState) (outcome : MeasureOutcome) : SessionState × List CallbackCall :=
  match outcome with
  | .success result now =>
      ({ s with quality := some result.quality
                measurement := some result.measurement
                lastMeasuredAt := some now
                isLoading := false
                isMeasuring := false },
       onMeasureCalls options (some result) Option.none)
  | .failure errorMsg =>
      ({ s with error := some errorMsg
                quality := Option.none
                isLoading := false
                isMeasuring := false },
       onMeasureCalls options Option.none (some errorMsg))

/-- Events a live session can process: a `refresh()` call (which runs
the synchronous prefix of `performMeasurement` immediately), or the
in-flight measurement promise settling (which runs the completion
handling). -/
inductive SessionEvent where
  | refreshCall
  | resolve (outcome : MeasureOutcome)
deriving DecidableEq, Repr

/-- One step of the session: the new state, the callback invocations
made during the step, and whether a new orchestration run was started. -/
def sessionStep (options : Option UseNetworkQualityOptions)
    (s : SessionState) : SessionEvent → SessionState × List CallbackCall × Bool
  | .refreshCall =>
      let p := performMeasurementStart s
      (p.1, [], p.2)
  | .resolve outcome =>
      let p := performMeasurementComplete options s outcome
      (p.1, p.2, false)

/-- App lifecycle states delivered by the `AppState` change listener. -/
inductive AppStateStatus where
  | active
  | background
  | inactive
deriving DecidableEq, Repr

/-- Whether the resume effect of `useNetworkQuality` installs the
`AppState` listener at all: the source reads
`if (!options?.measureOnResume) return;`, so the listener exists only
when the flag is literally `true` — an absent options object or an
unspecified flag both skip the subscription. -/
def resumeListenerInstalled (options : Option UseNetworkQualityOptions) : Bool :=
  match options with
  | Option.none => false
  | some o => o.measureOnResume.getD false

/-- Number of `performMeasurement` invocations the resume listener makes
for a sequence of `AppState` change events: one per `active` transition
when the listener is installed, none otherwise. -/
def resumeRunsTriggered (options : Option UseNetworkQualityOptions)
    (events : List AppStateStatus) : Nat :=
  if resumeListenerInstalled options then
    (events.filter (fun st => st == AppStateStatus.active)).length
  else 0

/-- Whether the mount effect runs a measurement:
`if (options?.measureOnMount !== false)` — any value other than a
literal `false` (including absent options) triggers the mount run. -/
def mountRunTriggered (options : Option UseNetworkQualityOptions) : Bool :=
  match options with
  | Option.none => true
  | some o => o.measureOnMount.getD true

/-- An options record with every field left unspecified, as produced by
`useNetworkQuality({})`. -/
def defaultOptions : UseNetworkQualityOptions :=
  { measureOnResume := Option.none
    measureOnMount := Option.none
    extended := Option.none
    timeoutMs := Option.none
    hasOnMeasure := false }

/-- A concrete error message used in witnesses. -/
def sampleError : String := "Network request failed"

/-- C3: for every measurement record with `isConnected = false`, the
scorer returns the tier `offline`, regardless of the values (present or
absent) of every other field of the record. -/
theorem offline_scores_offline (m : NetworkMeasurement)
    (h : m.isConnected = false) : scoreNetworkQuality m = .offline := by
  simp [scoreNetworkQuality, h]

/-- Witness for C3 at a concrete disconnected record. -/
theorem offline_scores_offline_witness :
    scoreNetworkQuality { emptyMeasurement with
          isConnected := false } = .offline :=
  offline_scores_offline { emptyMeasurement with
          isConnected := false } rfl

/-- C4: a connected record with `latencyMs`, `downlinkMbps` and
`packetLossPercent` all absent is scored exactly as if they were the
sentinels 999 ms, 0 Mbps and 100 %, and the resulting tier is `poor`. -/
theorem all_absent_scores_poor (m : NetworkMeasurement)
    (hc : m.isConnected = true) (hl : m.latencyMs = Option.none)
    (hd : m.downlinkMbps = Option.none) (hp : m.packetLossPercent = Option.none) :
    scoreNetworkQuality m =
      scoreNetworkQuality { m with latencyMs := some 999, downlinkMbps := some 0,
                                   packetLossPercent := some 100 } ∧
    scoreNetworkQuality m = .poor := by
  constructor
  · simp [scoreNetworkQuality, hc, hl, hd, hp]
  · norm_num [scoreNetworkQuality, hc, hl, hd, hp]

/-- Witness for C4 at the concrete all-absent connected record. -/
theorem all_absent_scores_poor_witness :
    scoreNetworkQuality emptyMeasurement = .poor :=
  (all_absent_scores_poor emptyMeasurement rfl rfl rfl rfl).2

/-- C5: every connected record whose three probe fields are present and
strictly inside the excellent bounds (latency < 50, downlink > 20,
loss < 1) scores `excellent`, while the exact boundary record
(latency = 50, downlink = 20, loss = 1) scores `good`: the excellent
edges are strict inequalities. -/
theorem excellent_strict_bounds :
    (∀ (m : NetworkMeasurement) (l d p : ℚ),
        m.isConnected = true → m.latencyMs = some l → m.downlinkMbps = some d →
        m.packetLossPercent = some p → l < 50 → d > 20 → p < 1 →
        scoreNetworkQuality m = .excellent) ∧
    scoreNetworkQuality { emptyMeasurement with
          latencyMs := some 50, downlinkMbps := some 20, packetLossPercent := some 1 } = .good := by
  constructor
  · intro m l d p hc hl hd hp h1 h2 h3
    simp [scoreNetworkQuality, hc, hl, hd, hp, h1, h2, h3]
  · norm_num [scoreNetworkQuality, emptyMeasurement]

/-- Witness for C5 applied at the concrete record
(latency 30, downlink 25, loss 0.2). -/
theorem excellent_strict_bounds_witness :
    scoreNetworkQuality { emptyMeasurement with
          latencyMs := some 30, downlinkMbps := some 25, packetLossPercent := some (2/10) } = .excellent :=
  excellent_strict_bounds.1 _ 30 25 (2/10) rfl rfl rfl rfl
    (by norm_num) (by norm_num) (by norm_num)

/-- C6 counterexample: with downlink = 10 Mbps and loss = 0.5 % the
excellent thresholds are NOT satisfied even when latency is well inside
the excellent bound (30 ms): the scorer returns `good`, because
downlink = 10 fails the `> 20 Mbps` edge. This refutes the claim's
assertion that the downlink and loss values alone satisfy the excellent
thresholds. -/
theorem sentinel_rationale_counterexample :
    scoreNetworkQuality { emptyMeasurement with
          latencyMs := some 30, downlinkMbps := some 10, packetLossPercent := some (1/2) } = .good ∧
    scoreNetworkQuality { emptyMeasurement with
          latencyMs := some 30, downlinkMbps := some 10, packetLossPercent := some (1/2) } ≠ .excellent := by
  constructor
  · norm_num [scoreNetworkQuality, emptyMeasurement]
  · norm_num [scoreNetworkQuality, emptyMeasurement]
    decide

/-- C6 (amended): for a connected record with `latencyMs` absent,
downlink = 10 Mbps and loss = 0.5 %, the scorer scores exactly as if
latency were the sentinel 999 ms and returns `poor` — even though the
downlink and loss values alone satisfy the good thresholds (with an
excellent latency of 30 ms the same values score `good`). -/
theorem sentinel_latency_forces_poor :
    scoreNetworkQuality { emptyMeasurement with
          latencyMs := Option.none, downlinkMbps := some 10, packetLossPercent := some (1/2) } =
      scoreNetworkQuality { emptyMeasurement with
          latencyMs := some 999, downlinkMbps := some 10, packetLossPercent := some (1/2) } ∧
    scoreNetworkQuality { emptyMeasurement with
          latencyMs := Option.none, downlinkMbps := some 10, packetLossPercent := some (1/2) } = .poor ∧
    scoreNetworkQuality { emptyMeasurement with
          latencyMs := some 30, downlinkMbps := some 10, packetLossPercent := some (1/2) } = .good := by
  refine ⟨?_, ?_, ?_⟩ <;> norm_num [scoreNetworkQuality, emptyMeasurement]

/-- C8: for every value the native measurement resolves with, the
one-shot `measureNetworkQuality` returns a result whose `quality` field
is the scorer applied to its own `measurement` field. -/
theorem one_shot_quality_consistent (m : NetworkMeasurement) :
    (measureNetworkQuality m).quality =
      scoreNetworkQuality (measureNetworkQuality m).measurement := rfl

/-- C9: every connected record with `packetLossPercent` absent (as after
a non-extended measurement) is scored with the 100 % loss sentinel and
therefore `poor`, whatever `latencyMs` and `downlinkMbps` hold. -/
theorem absent_loss_scores_poor (m : NetworkMeasurement)
    (hc : m.isConnected = true) (hp : m.packetLossPercent = Option.none) :
    scoreNetworkQuality m = .poor := by
  norm_num [scoreNetworkQuality, hc, hp]

/-- Witness for C9 at a record with perfect latency and downlink but no
loss figure. -/
theorem absent_loss_scores_poor_witness :
    scoreNetworkQuality { emptyMeasurement with
          latencyMs := some 10, downlinkMbps := some 50 } = .poor :=
  absent_loss_scores_poor _ rfl rfl

/-- C2: from any session state with the mutual-exclusion flag clear, a
`refresh()` call starts a run and sets the flag; a second back-to-back
`refresh()` before completion is an exact no-op (unchanged state, no
run started); no session event other than the in-flight promise
settling can clear the flag; and completion handling (success or
failure) does clear it, in the same step as its state updates. -/
theorem refresh_mutual_exclusion (options : Option UseNetworkQualityOptions)
    (s : SessionState) (h : s.isMeasuring = false) :
    (performMeasurementStart s).2 = true ∧
    (performMeasurementStart s).1.isMeasuring = true ∧
    performMeasurementStart (performMeasurementStart s).1 =
      ((performMeasurementStart s).1, false) ∧
    (∀ e : SessionEvent,
        (sessionStep options (performMeasurementStart s).1 e).1.isMeasuring = false →
        ∃ outcome, e = .resolve outcome) ∧
    (∀ outcome : MeasureOutcome,
        (performMeasurementComplete options (performMeasurementStart s).1
            outcome).1.isMeasuring = false) := by
  refine ⟨?_, ?_, ?_, ?_, ?_⟩
  · simp [performMeasurementStart, h]
  · simp [performMeasurementStart, h]
  · simp [performMeasurementStart, h]
  · intro e he
    cases e with
    | refreshCall =>
        exfalso
        revert he
        simp [sessionStep, performMeasurementStart, h]
    | resolve outcome => exact ⟨outcome, rfl⟩
  · intro outcome
    cases outcome <;> simp [performMeasurementComplete]

/-- Witness for C2: from the initial session state, the second of two
back-to-back `refresh()` calls is a no-op. -/
theorem refresh_mutual_exclusion_witness :
    performMeasurementStart (performMeasurementStart initialSessionState).1 =
      ((performMeasurementStart initialSessionState).1, false) :=
  (refresh_mutual_exclusion Option.none initialSessionState rfl).2.2.1

/-- C7: when the awaited measurement call rejects, the session takes the
failure transition: `quality` is cleared, `error` is set to the failure
message, and `onMeasure` is invoked with `(null, error)`; and this is
the only condition surfaced as an error — a success completion leaves
`error` untouched and invokes `onMeasure` with `(result, null)`. -/
theorem failure_transition (o : UseNetworkQualityOptions) (s : SessionState)
    (msg : String) (hcb : o.hasOnMeasure = true) :
    (performMeasurementComplete (some o) s (.failure msg)).1.quality = Option.none ∧
    (performMeasurementComplete (some o) s (.failure msg)).1.error = some msg ∧
    (performMeasurementComplete (some o) s (.failure msg)).2 =
      [.onMeasure Option.none (some msg)] ∧
    (∀ (r : NetworkQualityResult) (now : ℚ),
        (performMeasurementComplete (some o) s (.success r now)).1.error = s.error ∧
        (performMeasurementComplete (some o) s (.success r now)).2 =
          [.onMeasure (some r) Option.none]) := by
  refine ⟨rfl, rfl, ?_, ?_⟩
  · simp [performMeasurementComplete, onMeasureCalls, hcb]
  · intro r now
    exact ⟨rfl, by simp [performMeasurementComplete, onMeasureCalls, hcb]⟩

/-- Witness for C7 with a concrete callback-carrying options record, the
initial state and a concrete rejection message. -/
theorem failure_transition_witness :
    (performMeasurementComplete (some { defaultOptions with hasOnMeasure := true })
        initialSessionState (.failure sampleError)).1.error = some sampleError :=
  (failure_transition { defaultOptions with hasOnMeasure := true }
    initialSessionState sampleError rfl).2.1

/-- C10: the failure transition leaves `measurement` and
`lastMeasuredAt` untouched — a failed refresh never erases the last
successfully recorded measurement or its timestamp. -/
theorem failure_preserves_measurement (options : Option UseNetworkQualityOptions)
    (s : SessionState) (msg : String) :
    (performMeasurementComplete options s (.failure msg)).1.measurement =
      s.measurement ∧
    (performMeasurementComplete options s (.failure msg)).1.lastMeasuredAt =
      s.lastMeasuredAt :=
  ⟨rfl, rfl⟩

/-- C1: evaluation of the resume-trigger logic at the failing input.
With `measureOnResume = true` one resume-to-active transition triggers
exactly one run (two transitions trigger two), and with
`measureOnResume = false` none is triggered — but with the flag left
unspecified (or options absent) the source
(`if (!options?.measureOnResume) return;`) never installs the listener,
so a resume transition triggers no run, contrary to the documented
default of `true` in `types.ts`. -/
theorem resume_default_disables_trigger :
    resumeListenerInstalled (some defaultOptions) = false ∧
    resumeRunsTriggered (some defaultOptions) [.active] = 0 ∧
    resumeRunsTriggered Option.none [.active] = 0 ∧
    resumeRunsTriggered (some { defaultOptions with measureOnResume := some true })
      [.active] = 1 ∧
    resumeRunsTriggered (some { defaultOptions with measureOnResume := some true })
      [.background, .active, .inactive, .active] = 2 ∧
    resumeRunsTriggered (some { defaultOptions with measureOnResume := some false })
      [.active] = 0 := by
  decide

end NetworkQuality
